import Mathlib

/-!
Shallow embedding of the ClamAV bytecode-emulator virtual memory manager
(`src/clamemu/vmm.c`) and verification of the specification's claims about it.

The C code is translated function by function.  Machine integers are modelled
as `Nat` with explicit reduction modulo `2^32` (for `uint32_t` arithmetic that
can wrap) and modulo the declared bit-field widths on stores into the packed
`page_t` fields.  Fallible operations return the error code they return in C.
File descriptors are modelled by the observable behaviour of `pread` on them:
a byte-content function plus a per-offset failure predicate.
-/

namespace Vmm

/-- `uint32_t` truncation. -/
def u32 (x : Nat) : Nat := x % 4294967296

def MINALIGN : Nat := 512

/-- Modelled from the spec: `vmm.h` is not among the sources; the permission
bitset {read, write, execute} it declares is modelled as bit positions
`flag_r`, `flag_w`, `flag_x`. -/
def flag_r : Nat := 0

/-- Modelled from the spec: write-permission bit position (see `flag_r`). -/
def flag_w : Nat := 1

/-- Modelled from the spec: execute-permission bit position (see `flag_r`). -/
def flag_x : Nat := 2

/-- Modelled from the spec: `vmm.h` is not among the sources; the spec says the
failure surface is a set of error constants, with reads and writes each
returning a single generic code.  The constants only need to be the distinct
values the functions in `vmm.c` return (negated, as in C). -/
def EMU_ERR_GENERIC : Int := 1

/-- Modelled from the spec: error constant returned by failing reads (see
`EMU_ERR_GENERIC`). -/
def EMU_ERR_VMM_READ : Int := 2

/-- Modelled from the spec: error constant returned by failing writes (see
`EMU_ERR_GENERIC`). -/
def EMU_ERR_VMM_WRITE : Int := 3

def IMAGE_SCN_CNT_UNINITIALIZED_DATA : Nat := 128
def IMAGE_SCN_MEM_EXECUTE : Nat := 0x20000000
def IMAGE_SCN_MEM_READ : Nat := 0x40000000
def IMAGE_SCN_MEM_WRITE : Nat := 0x80000000

/-- C `page_t`: one packed page-table entry.  The C bit-field widths
(`file_offset:23`, `flag_rwx:3`, `modified:1`, `init:1`,
`cached_page_idx:4`) are enforced by reducing stored values modulo the
field width at every assignment.  A `calloc`ed entry is all zero, which the
field defaults reproduce. -/
structure page_t where
  file_offset : Nat := 0
  flag_rwx : Nat := 0
  modified : Bool := false
  init : Bool := false
  cached_page_idx : Nat := 0
deriving DecidableEq

/-- C `cached_page_t`: a cache slot.  `data` is the 4096-byte buffer as a
byte function (the C `memcpy` in `vmm_read` can run past index 4095 for a
page-boundary crossing; what it finds there is adjacent-struct memory in C
and the tail of this function in the model — no proved theorem depends on
those indices). -/
structure cached_page_t where
  flag_rwx : Nat := 0
  dirty : Bool := false
  data : Nat → Nat := fun _ => 0

/-- C `struct cli_exe_section` (from `pe.h`, fields as used by `vmm.c`):
all fields are `uint32_t` values. -/
structure cli_exe_section where
  rva : Nat := 0
  vsz : Nat := 0
  raw : Nat := 0
  chr : Nat := 0
  urva : Nat := 0
deriving DecidableEq

/-- C `struct cli_pe_hook_data`, restricted to the fields `vmm.c` reads:
`file_hdr.Machine`, `le16_to_host(opt64.Magic)`, `opt32.ImageBase`,
`opt32.SectionAlignment`, `opt32.FileAlignment` (the two alignments only
feed debug logging) and `nsections`. -/
structure pe_hook_data where
  machine : Nat := 0x14c
  magic : Nat := 0x10b
  imageBase : Nat := 0
  sectionAlignment : Nat := 4096
  fileAlignment : Nat := 512
  nsections : Nat := 0
deriving DecidableEq

/-- C `struct emu_vmm`.  `tmpfd : Bool` models whether the scratch-store
descriptor exists (`v->tmpfd != -1`); `tmpfile` is the scratch store's byte
content; `infd_data`/`infd_fail` model `pread` on the original file: the
read of one page at byte offset `o` fails iff `infd_fail o`, and otherwise
delivers bytes `infd_data (o+i)`.  `slot_page` is ghost instrumentation
(not in the C struct): which page's content was last loaded into each cache
slot, used only to state residency invariants. -/
structure emu_vmm where
  cached : Nat → cached_page_t
  cached_idx : Nat
  lastused_page : Nat
  lastused_page_idx : Nat
  imagebase : Nat
  page_flags : List page_t
  n_pages : Nat
  tmpfd : Bool
  tmpfd_written : Nat
  tmpfile : Nat → Nat
  infd_data : Nat → Nat
  infd_fail : Nat → Bool
  slot_page : Nat → Option Nat

instance : Inhabited emu_vmm :=
  ⟨{ cached := fun _ => {}, cached_idx := 0, lastused_page := 0,
     lastused_page_idx := 0, imagebase := 0, page_flags := [], n_pages := 0,
     tmpfd := false, tmpfd_written := 0, tmpfile := fun _ => 0,
     infd_data := fun _ => 0, infd_fail := fun _ => false,
     slot_page := fun _ => none }⟩

/-- C `vmm_pageout(v, c, p)`: write the evicted slot `c` (index `cslot`)
back to the scratch store.  `page` identifies the `page_t *p` argument; the
sole caller, `vmm_pagein`, passes the entry of the page being faulted IN.
`cli_gentempfd` is modelled as succeeding.  The C code's `pwrite(...) != n`
check compares the byte count written (4096) with the file offset `n` and
can only log and return; nothing follows it, so it has no modelled effect —
the store itself has already happened. -/
def vmm_pageout (v : emu_vmm) (cslot : Nat) (page : Nat) : emu_vmm :=
  let p := v.page_flags.getD page {}
  let p := { p with init := true }
  let pv :=
    if !p.modified then
      let p := { p with modified := true }
      let v := if !v.tmpfd then { v with tmpfd := true } else v
      let p := { p with file_offset := v.tmpfd_written % 2^23 }
      (p, { v with tmpfd_written := u32 (v.tmpfd_written + 4096 / MINALIGN) })
    else (p, v)
  let p := pv.1
  let v := pv.2
  let n := p.file_offset * MINALIGN
  let c := v.cached cslot
  let v := { v with page_flags := v.page_flags.set page p }
  { v with tmpfile := fun i => if n ≤ i ∧ i < n + 4096 then c.data (i - n) else v.tmpfile i }

/-- C `vmm_pagein(v, p)`: bring `page` into the next round-robin slot.
Returns the slot index of the C return value `c`, or `none` for the `NULL`
return when `pread` on the original file fails (scratch-store reads read
back what the model wrote, so they do not fail).  Note the C ordering,
reproduced here: `v->cached_idx` is advanced *before* the slot is filled,
`p->cached_page_idx` is set from the already-advanced index, and both it
and the slot's permission snapshot are set *before* the `pread` that can
fail.  `pread` delivers bytes; loaded values are reduced mod 256. -/
def vmm_pagein (v : emu_vmm) (page : Nat) : Option Nat × emu_vmm :=
  let nextidx := v.cached_idx + 1
  let cslot := v.cached_idx
  let v := { v with cached_idx := if nextidx ≥ 15 then 0 else nextidx }
  let v := if (v.cached cslot).dirty then vmm_pageout v cslot page else v
  let p := v.page_flags.getD page {}
  let v := { v with
    cached := fun i => if i = cslot then
        { v.cached i with flag_rwx := p.flag_rwx, dirty := false }
      else v.cached i,
    page_flags := v.page_flags.set page
      { p with cached_page_idx := (v.cached_idx + 1) % 2^4 } }
  let p := v.page_flags.getD page {}
  if !p.init then
    (some cslot,
     { v with
       cached := fun i => if i = cslot then
           { v.cached i with data := fun _ => 0 }
         else v.cached i,
       slot_page := fun i => if i = cslot then some page else v.slot_page i })
  else
    let off := p.file_offset * MINALIGN
    if p.modified then
      (some cslot,
       { v with
         cached := fun i => if i = cslot then
             { v.cached i with data := fun j => v.tmpfile (off + j) % 256 }
           else v.cached i,
         slot_page := fun i => if i = cslot then some page else v.slot_page i })
    else if v.infd_fail off then
      (none, v)
    else
      (some cslot,
       { v with
         cached := fun i => if i = cslot then
             { v.cached i with data := fun j => v.infd_data (off + j) % 256 }
           else v.cached i,
         slot_page := fun i => if i = cslot then some page else v.slot_page i })

/-- C `vmm_cache_2page(v, va)`: resolve `va` to a cache slot.  Returns the
slot index of the returned `cached_page_t *`, or `none` for `NULL`.  The
bounds test is the source's strict `page > v->n_pages`; for
`page = v->n_pages` the C code indexes `v->page_flags[page]` one past the
allocation (undefined behaviour), which the model renders as reading a
zeroed entry (`List.getD` default) and as a no-op store (`List.set` past
the end). -/
def vmm_cache_2page (v : emu_vmm) (va : Nat) : Option Nat × emu_vmm :=
  let page := va / 4096
  if v.lastused_page = page then
    (some v.lastused_page_idx, v)
  else if page > v.n_pages then
    (none, v)
  else
    let p := v.page_flags.getD page {}
    let idx := p.cached_page_idx
    if idx ≠ 0 then
      (some (idx - 1),
       { v with lastused_page := page, lastused_page_idx := idx - 1 })
    else
      let v := if page + 1 < v.n_pages then (vmm_pagein v (page + 1)).2 else v
      vmm_pagein v page

/-- C `vmm_read(v, va, value, len, flags)`: returns the C return code and,
on success, the `len` bytes copied out (C leaves `value` untouched on
failure, hence `none`). -/
def vmm_read (v : emu_vmm) (va len flags : Nat) :
    (Int × Option (List Nat)) × emu_vmm :=
  match vmm_cache_2page v va with
  | (some cslot, v) =>
    let c := v.cached cslot
    if c.flag_rwx &&& flags ≠ 0 then
      ((0, some ((List.range len).map fun i => c.data (va % 4096 + i))), v)
    else
      ((-EMU_ERR_VMM_READ, none), v)
  | (none, v) => ((-EMU_ERR_VMM_READ, none), v)

/-- C `cli_emu_vmm_read_r`. -/
def cli_emu_vmm_read_r (v : emu_vmm) (va len : Nat) :
    (Int × Option (List Nat)) × emu_vmm :=
  vmm_read v va len (1 <<< flag_r)

/-- C `cli_emu_vmm_read_x`. -/
def cli_emu_vmm_read_x (v : emu_vmm) (va len : Nat) :
    (Int × Option (List Nat)) × emu_vmm :=
  vmm_read v va len (1 <<< flag_x)

/-- C `cli_emu_vmm_read8`. -/
def cli_emu_vmm_read8 (v : emu_vmm) (va : Nat) :
    (Int × Option Nat) × emu_vmm :=
  match vmm_read v va 1 (1 <<< flag_r) with
  | ((rc, bs), v) => ((rc, bs.map fun l => l.getD 0 0), v)

/-- C `cli_emu_vmm_read16`: little-endian assembly of the two bytes
(`le16_to_host` composed with the host-order `memcpy`). -/
def cli_emu_vmm_read16 (v : emu_vmm) (va : Nat) :
    (Int × Option Nat) × emu_vmm :=
  match vmm_read v va 2 (1 <<< flag_r) with
  | ((rc, bs), v) =>
    ((rc, bs.map fun l => l.getD 0 0 + 256 * l.getD 1 0), v)

/-- C `cli_emu_vmm_read32`: little-endian assembly of the four bytes. -/
def cli_emu_vmm_read32 (v : emu_vmm) (va : Nat) :
    (Int × Option Nat) × emu_vmm :=
  match vmm_read v va 4 (1 <<< flag_r) with
  | ((rc, bs), v) =>
    ((rc, bs.map fun l =>
        l.getD 0 0 + 256 * l.getD 1 0 + 65536 * l.getD 2 0
          + 16777216 * l.getD 3 0), v)

/-- C `cli_emu_vmm_write(v, va, value, len)`: `bytes` are the `len` bytes
of `value`; stored values are reduced mod 256 (`uint8_t` buffer). -/
def cli_emu_vmm_write (v : emu_vmm) (va : Nat) (bytes : List Nat) :
    Int × emu_vmm :=
  match vmm_cache_2page v va with
  | (some cslot, v) =>
    let c := v.cached cslot
    if c.flag_rwx &&& (1 <<< flag_w) ≠ 0 then
      let off := va % 4096
      (0, { v with cached := fun i => if i = cslot then
              { c with
                data := fun j =>
                  if off ≤ j ∧ j < off + bytes.length then
                    bytes.getD (j - off) 0 % 256
                  else c.data j,
                dirty := true }
            else v.cached i })
    else
      (-EMU_ERR_VMM_WRITE, v)
  | (none, v) => (-EMU_ERR_VMM_WRITE, v)

/-- C `cli_emu_vmm_write8` (`uint8_t a = value`). -/
def cli_emu_vmm_write8 (v : emu_vmm) (va value : Nat) : Int × emu_vmm :=
  cli_emu_vmm_write v va [value % 256]

/-- C `cli_emu_vmm_write16` (little-endian byte image of `uint16_t a`). -/
def cli_emu_vmm_write16 (v : emu_vmm) (va value : Nat) : Int × emu_vmm :=
  cli_emu_vmm_write v va [value % 256, value / 256 % 256]

/-- C `cli_emu_vmm_write32` (little-endian byte image of `uint32_t a`). -/
def cli_emu_vmm_write32 (v : emu_vmm) (va value : Nat) : Int × emu_vmm :=
  cli_emu_vmm_write v va
    [value % 256, value / 256 % 256, value / 65536 % 256,
     value / 16777216 % 256]

/-- C `cli_emu_vmm_prot_set`.  The C function is declared `int` but falls
off the end on the success path (no `return` statement); the model returns
0 there.  The 3-bit `flag_rwx` store truncates mod 8. -/
def cli_emu_vmm_prot_set (v : emu_vmm) (va len rwx : Nat) :
    Int × emu_vmm :=
  let page := va / 4096
  if page ≥ v.n_pages then
    (-EMU_ERR_GENERIC, v)
  else
    let p := v.page_flags.getD page {}
    (0, { v with page_flags := v.page_flags.set page { p with flag_rwx := rwx % 8 } })

/-- C `cli_emu_vmm_prot_get`. -/
def cli_emu_vmm_prot_get (v : emu_vmm) (va len : Nat) : Int :=
  let page := va / 4096
  if page ≥ v.n_pages then
    -EMU_ERR_GENERIC
  else
    ((v.page_flags.getD page {}).flag_rwx : Int)

/-- C `map_pages`, header loop (lines 93–96): pages `i` with
`i*4096 < sections[0].rva` get `file_offset = i*4096/MINALIGN` and
`flag_rwx = 1 << flag_r`; note the loop assigns only those two fields
(`init` in particular is left as calloc left it).  Iterations with
`i ≥ n_pages` write past the C allocation (undefined behaviour); the model
renders them as no-op `List.set`. -/
def map_header (pf : List page_t) (rva0 : Nat) : List page_t :=
  (List.range ((u32 rva0 + 4095) / 4096)).foldl
    (fun pf i =>
      pf.set i { pf.getD i {} with
        file_offset := i * 4096 / MINALIGN % 2^23,
        flag_rwx := 1 <<< flag_r })
    pf

/-- C `map_pages`, inner per-section page loop (lines 116–128), iterating
`rem` remaining values of `j`.  Returns `none` for the `return -1` when a
page index reaches `n_pages`. -/
def map_section_loop (n_pages rva raw : Nat) (zeroinit : Bool) (frwx : Nat) :
    Nat → Nat → List page_t → Option (List page_t)
  | _, 0, pf => some pf
  | j, rem + 1, pf =>
    let page := rva / 4096 + j
    if page ≥ n_pages then
      none
    else
      let p := pf.getD page {}
      let p := { p with init := !zeroinit }
      let p := if !zeroinit then
          { p with file_offset := u32 (raw + j * 4096) / MINALIGN % 2^23 }
        else p
      let p := { p with flag_rwx := (p.flag_rwx ||| frwx) % 8 }
      map_section_loop n_pages rva raw zeroinit frwx (j + 1) rem (pf.set page p)

/-- C `map_pages`, outer section loop (lines 97–133), iterating `rem`
remaining sections starting at index `i`.  The gap/overlap check is the
`uint32_t` comparison `sections[i].urva - sections[i-1].urva !=
sections[i-1].vsz`. -/
def map_sections (sections : List cli_exe_section) (n_pages : Nat) :
    Nat → Nat → List page_t → Option (List page_t)
  | _, 0, pf => some pf
  | i, rem + 1, pf =>
    let s := sections.getD i {}
    let sprev := sections.getD (i - 1) {}
    if i ≠ 0 ∧ (u32 s.urva + 4294967296 - u32 sprev.urva) % 4294967296 ≠ u32 sprev.vsz then
      none
    else
      let zeroinit := s.chr &&& IMAGE_SCN_CNT_UNINITIALIZED_DATA ≠ 0
      let frwx :=
        (if s.chr &&& IMAGE_SCN_MEM_EXECUTE ≠ 0 then 1 <<< flag_x else 0) |||
        (if s.chr &&& IMAGE_SCN_MEM_READ ≠ 0 then 1 <<< flag_r else 0) |||
        (if s.chr &&& IMAGE_SCN_MEM_WRITE ≠ 0 then 1 <<< flag_w else 0)
      let pages := u32 (s.vsz + 4095) / 4096
      match map_section_loop n_pages s.rva s.raw zeroinit frwx 0 pages pf with
      | none => none
      | some pf => map_sections sections n_pages (i + 1) rem pf

/-- C `map_pages`: machine-type gate, header mapping, section walk.
The alignment branches (lines 84–91) only emit debug logging and are
omitted.  `none` is the C `return -1`. -/
def map_pages (pf : List page_t) (n_pages : Nat) (pedata : pe_hook_data)
    (sections : List cli_exe_section) : Option (List page_t) :=
  if pedata.machine = 0x14c ∨ pedata.machine = 0x14d ∨ pedata.machine = 0x14e then
    map_sections sections n_pages 0 pedata.nsections
      (map_header pf (sections.getD 0 {}).rva)
  else
    none

/-- C `cli_emu_vmm_new`.  `infd_data`/`infd_fail` model the `pread`
behaviour of the file descriptor argument.  `cli_calloc` is modelled as
succeeding (its failure is an out-of-memory environment condition).
`v->lastused_page = ~0u` is the `uint32_t` value `4294967295`. -/
def cli_emu_vmm_new (pedata : pe_hook_data) (sections : List cli_exe_section)
    (infd_data : Nat → Nat) (infd_fail : Nat → Bool) : Option emu_vmm :=
  if pedata.magic = 0x020b then
    none
  else if pedata.nsections = 0 then
    none
  else
    let last := sections.getD (pedata.nsections - 1) {}
    let n_pages := u32 (last.rva + last.vsz + 4095) / 4096
    let pf0 : List page_t := List.replicate n_pages {}
    match map_pages pf0 n_pages pedata sections with
    | none => none
    | some pf =>
      some { cached := fun _ => {}, cached_idx := 0,
             lastused_page := 4294967295, lastused_page_idx := 0,
             imagebase := pedata.imageBase,
             page_flags := pf, n_pages := n_pages,
             tmpfd := false, tmpfd_written := 0, tmpfile := fun _ => 0,
             infd_data := infd_data, infd_fail := infd_fail,
             slot_page := fun _ => none }

/-- A `pread` failure predicate that never fails. -/
def nofail : Nat → Bool := fun _ => false

/-- File whose byte at every offset is the page number (mod 256) of the
4096-byte page the offset lies in. -/
def pageNumFile : Nat → Nat := fun o => o / 4096 % 256

/-! ### Concrete images used by the claims -/

/-- PE metadata for a one-section image (valid machine and magic). -/
def pd1 : pe_hook_data := { nsections := 1 }

/-- PE metadata for a two-section image. -/
def pd2 : pe_hook_data := { nsections := 2 }

/-- One read+write section covering one page at rva 0. -/
def sec1 : cli_exe_section :=
  { rva := 0, vsz := 0x1000, raw := 0, chr := 0xC0000000, urva := 0 }

/-- Address space of `sec1` over an all-zero file. -/
def v1 : emu_vmm := (cli_emu_vmm_new pd1 [sec1] (fun _ => 0) nofail).getD default

/-- One read+write section covering 18 pages at rva 0. -/
def sec18 : cli_exe_section :=
  { rva := 0, vsz := 18 * 4096, raw := 0, chr := 0xC0000000, urva := 0 }

/-- Address space of `sec18` over `pageNumFile`. -/
def v18 : emu_vmm := (cli_emu_vmm_new pd1 [sec18] pageNumFile nofail).getD default

/-- Trace for the eviction claim: write byte `0xAA` at address 0 (which
faults in pages 1 and 0), then touch pages 2,4,…,14 and finally 16; the
sixteenth page-in reuses slot 0 (evicting page 1, the first page faulted
in) and the seventeenth evicts the dirty slot 1 holding page 0's data. -/
def c2_state : emu_vmm :=
  let v := (cli_emu_vmm_write8 v18 0 0xAA).2
  let v := (cli_emu_vmm_read8 v (2 * 4096)).2
  let v := (cli_emu_vmm_read8 v (4 * 4096)).2
  let v := (cli_emu_vmm_read8 v (6 * 4096)).2
  let v := (cli_emu_vmm_read8 v (8 * 4096)).2
  let v := (cli_emu_vmm_read8 v (10 * 4096)).2
  let v := (cli_emu_vmm_read8 v (12 * 4096)).2
  let v := (cli_emu_vmm_read8 v (14 * 4096)).2
  (cli_emu_vmm_read8 v (16 * 4096)).2

/-- One read-only section covering one page at rva 0. -/
def sec4 : cli_exe_section :=
  { rva := 0, vsz := 0x1000, raw := 0, chr := 0x40000000, urva := 0 }

/-- Address space of `sec4` over a file whose every `pread` fails. -/
def v4 : emu_vmm := (cli_emu_vmm_new pd1 [sec4] (fun _ => 0) (fun _ => true)).getD default

/-- State after the failing read on `v4`. -/
def c4_after : emu_vmm := (cli_emu_vmm_read8 v4 0).2

/-- One read-only section covering three pages at rva 0. -/
def sec5 : cli_exe_section :=
  { rva := 0, vsz := 3 * 4096, raw := 0, chr := 0x40000000, urva := 0 }

/-- Address space of `sec5` over `pageNumFile`. -/
def v5 : emu_vmm := (cli_emu_vmm_new pd1 [sec5] pageNumFile nofail).getD default

/-- Trace for the residency-invariant claim: read page 1 (faults pages 2
and 1), then read page 0 (the opportunistic adjacent fault-in loads page 1
again, although it is still resident). -/
def c5_state : emu_vmm :=
  (cli_emu_vmm_read8 ((cli_emu_vmm_read8 v5 4096).2) 0).2

/-- Section 0 of the permission image: read+write, one page at rva 0. -/
def sec6a : cli_exe_section :=
  { rva := 0, vsz := 4096, raw := 0, chr := 0xC0000000, urva := 0 }

/-- Section 1 of the permission image: read-only, one page at rva 4096. -/
def sec6b : cli_exe_section :=
  { rva := 4096, vsz := 4096, raw := 4096, chr := 0x40000000, urva := 4096 }

/-- Two-page address space: page 0 read+write, page 1 read-only. -/
def v6 : emu_vmm :=
  (cli_emu_vmm_new pd2 [sec6a, sec6b] pageNumFile nofail).getD default

/-- `v6` after a successful write of `0xAA` at address 0 (page 0's data,
dirty, sits in cache slot 1; the page table records it as slot 2). -/
def c6_state : emu_vmm := (cli_emu_vmm_write8 v6 0 0xAA).2

/-- PE metadata of the spec's scenario image: base `0x400000`, one
section. -/
def pd7 : pe_hook_data := { nsections := 1, imageBase := 0x400000 }

/-- The spec's scenario section `{rva:0x1000, size:0x2000, raw:0x400,
perms: read|execute}`. -/
def sec7 : cli_exe_section :=
  { rva := 0x1000, vsz := 0x2000, raw := 0x400, chr := 0x60000000, urva := 0x1000 }

/-- The scenario file: byte at offset `0x400 + i` is `i` (mod 256). -/
def file7 : Nat → Nat := fun o => (o - 0x400) % 256

/-- Address space of the scenario image. -/
def v7 : emu_vmm := (cli_emu_vmm_new pd7 [sec7] file7 nofail).getD default

/-- One read-only section at rva 0x1000, leaving page 0 as a header page. -/
def sec8 : cli_exe_section :=
  { rva := 0x1000, vsz := 0x1000, raw := 0x2000, chr := 0x40000000, urva := 0x1000 }

/-- A file whose every byte is `0x7F`. -/
def file8 : Nat → Nat := fun _ => 0x7F

/-- Address space of `sec8` over `file8`: page 0 is a header page. -/
def v8 : emu_vmm := (cli_emu_vmm_new pd1 [sec8] file8 nofail).getD default

/-- One write-only section covering one page at rva 0. -/
def sec9 : cli_exe_section :=
  { rva := 0, vsz := 0x1000, raw := 0, chr := 0x80000000, urva := 0 }

/-- Address space of `sec9`: page 0 lacks the read bit. -/
def v9 : emu_vmm := (cli_emu_vmm_new pd1 [sec9] (fun _ => 0) nofail).getD default

/-- First section of the 32-bit-wrap image: read-only, one page. -/
def s10a : cli_exe_section :=
  { rva := 0, vsz := 4096, raw := 0, chr := 0x40000000, urva := 0 }

/-- Second section of the 32-bit-wrap image: virtual size `0xFFFFFFFF`,
contiguous with the first (`urva` difference equals the first's `vsz`). -/
def s10b : cli_exe_section :=
  { rva := 4096, vsz := 0xFFFFFFFF, raw := 0, chr := 0x40000000, urva := 4096 }

/-! ### The claims -/

/-- C1: the claim says that on a page with both read and write permission a
successful write followed by a same-width read returns the written value.
The code violates it: on `v1` (one read+write page), `write8` at address 0
succeeds, but the immediately following `read8` at 0 fails with the generic
read error instead of returning `0xAA` — `vmm_pagein` records
`cached_page_idx` from the already-advanced round-robin cursor, so the page
table names the slot after the one that holds the page, and the resident
lookup lands on a never-filled slot. -/
theorem c1_write_then_read_loses_value :
    (v1.page_flags.getD 0 {}).flag_rwx = 3 ∧
    (cli_emu_vmm_write8 v1 0 0xAA).1 = 0 ∧
    (cli_emu_vmm_read8 ((cli_emu_vmm_write8 v1 0 0xAA).2) 0).1
      = (-EMU_ERR_VMM_READ, none) := by
  decide

/-- C2: the claim says the sixteenth page-in evicts the first page faulted
in (true: ghost `slot_page 0 = some 14` shows slot 0 was reused) and that a
dirty evicted page is persisted with *its* `modified` flag set so a later
re-fault returns the written content.  The code violates the second part:
after the `c2_state` trace the dirty slot holding page 0's data (with the
written byte `0xAA`) was evicted, yet page 0's `modified` flag is still
`false` while page 17 — the page being faulted in when the eviction
happened — got `modified = true`, the fresh scratch offset, and the evicted
bytes (`tmpfile 0 = 0xAA`, and page 17's cache buffer starts with `0xAA`).
A subsequent read at address 0 returns byte 16 (another page's content),
not the written `0xAA`. -/
theorem c2_eviction_writeback_misdirected :
    c2_state.slot_page 0 = some 14 ∧
    (c2_state.page_flags.getD 0 {}).modified = false ∧
    (c2_state.page_flags.getD 17 {}).modified = true ∧
    (c2_state.page_flags.getD 17 {}).file_offset = 0 ∧
    c2_state.tmpfile 0 = 0xAA ∧
    (c2_state.cached 1).data 0 = 0xAA ∧
    (cli_emu_vmm_read8 c2_state 0).1 = (0, some 16) := by
  decide

/-- C3: the claim says every access at or beyond `pageCount * 4096` fails
with the out-of-bounds error.  The code violates it for the first page past
the extent: `vmm_cache_2page` tests `page > n_pages` instead of
`page ≥ n_pages`, so on the one-page space `v1` the address 4096 resolves
to a cache slot (the bounds branch is not taken, `page_flags[1]` is read
one past the allocation, and a page fault is performed — the round-robin
cursor advances), whereas `cli_emu_vmm_prot_get`, which checks
`page ≥ n_pages`, correctly rejects the same address. -/
theorem c3_extent_boundary_not_rejected :
    v1.n_pages = 1 ∧
    (vmm_cache_2page v1 4096).1 = some 0 ∧
    (vmm_cache_2page v1 4096).2.cached_idx = 1 ∧
    cli_emu_vmm_prot_get v1 4096 1 = -EMU_ERR_GENERIC := by
  decide

/-- C4: the claim says a fault-in whose backing read fails reports the
error and leaves the slot invalid, so the page table does not record the
page as resident and a retry faults again.  The code violates it: on `v4`
(whose file `pread` always fails) the read errs, but `vmm_pagein` had
already stored `cached_page_idx = 2` before the `pread`, so the page stays
recorded as resident; the retried resolution takes the resident-hit path —
it returns slot 1 without advancing the round-robin cursor (no new fault)
and hands back a never-filled buffer. -/
theorem c4_failed_pagein_left_resident :
    (cli_emu_vmm_read8 v4 0).1 = (-EMU_ERR_VMM_READ, none) ∧
    (c4_after.page_flags.getD 0 {}).cached_page_idx = 2 ∧
    (vmm_cache_2page c4_after 0).1 = some 1 ∧
    (vmm_cache_2page c4_after 0).2.cached_idx = c4_after.cached_idx := by
  decide

/-- C5: the claim says a page occupies at most one cache slot and the
opportunistic adjacent-page fault-in never loads an already-resident page
into a second slot.  The code violates it: `vmm_cache_2page` calls
`vmm_pagein(v, &page_flags[page+1])` without checking
`page_flags[page+1].cached_page_idx`, so in the `c5_state` trace (read
page 1, then read page 0) page 1 is loaded twice — the ghost provenance
shows slots 1 and 2 both holding page 1's content. -/
theorem c5_adjacent_pagein_duplicates_residency :
    c5_state.slot_page 1 = some 1 ∧
    c5_state.slot_page 2 = some 1 ∧
    c5_state.slot_page 0 = some 2 ∧
    c5_state.slot_page 3 = some 0 := by
  decide

/-- C6: the claim says writing to a page without the write bit fails and
leaves all page contents unchanged.  The code violates it: on `v6`
(page 0 read+write, page 1 read-only), after a successful write of `0xAA`
at address 0, a write of `0xBB` at address 4096 — a page whose permission
bits lack the write bit — returns success (0) and stores `0xBB` into
page 0's cached buffer: the off-by-one `cached_page_idx` makes the resident
lookup return the slot holding page 0, whose permission snapshot grants
write. -/
theorem c6_protected_write_succeeds_and_clobbers :
    (v6.page_flags.getD 1 {}).flag_rwx &&& (1 <<< flag_w) = 0 ∧
    (c6_state.cached 1).data 0 = 0xAA ∧
    (cli_emu_vmm_write8 c6_state 4096 0xBB).1 = 0 ∧
    ((cli_emu_vmm_write8 c6_state 4096 0xBB).2.cached 1).data 0 = 0xBB := by
  decide

/-- C7 (counterexample): the claim says `read32` at the virtual address
`0x401000` (image base `0x400000` + rva `0x1000`) returns the little-endian
value of file bytes `0x400..0x403`, i.e. `0x03020100`.  On the constructed
scenario image it does not: the code never subtracts the image base, so
`0x401000 / 4096 = 1025` exceeds the 3-page table and the read fails with
the generic read error. -/
theorem c7_va_read_fails :
    (cli_emu_vmm_read32 v7 0x401000).1 ≠ (0, some 0x03020100) ∧
    (cli_emu_vmm_read32 v7 0x401000).1 = (-EMU_ERR_VMM_READ, none) := by
  decide

/-- C7 (amended): with addresses interpreted as rvas — the code performs no
image-base translation — the scenario holds: `read32` at rva `0x1000`
returns `0x03020100`, the little-endian value of file bytes
`0x400..0x403`, and `write8` at rva `0x1000` fails (page permissions are
read|execute, no write bit) with the generic write error. -/
theorem c7_rva_scenario_holds :
    (cli_emu_vmm_read32 v7 0x1000).1 = (0, some 0x03020100) ∧
    (cli_emu_vmm_write8 v7 0x1000 0x55).1 = -EMU_ERR_VMM_WRITE := by
  decide

/-- C8: the claim says header pages (before the first section) are mapped
read-only, backed 1:1 by file offset, so reading such a page returns the
file's byte at the same offset.  The code violates the read-back part: the header
loop of `map_pages` sets `file_offset` and `flag_rwx` but never sets
`init`, so header pages stay marked zero-fill and `vmm_pagein` zeroes the
buffer instead of reading the file — on `v8` (header page 0, file bytes all
`0x7F`) the read at address 0 succeeds but returns 0, not `0x7F`. -/
theorem c8_header_page_reads_zero :
    (v8.page_flags.getD 0 {}).flag_rwx = 1 <<< flag_r ∧
    (v8.page_flags.getD 0 {}).file_offset = 0 ∧
    (v8.page_flags.getD 0 {}).init = false ∧
    file8 0 = 0x7F ∧
    (cli_emu_vmm_read8 v8 0).1 = (0, some 0) := by
  decide

/-- C9 (counterexample): the claim says inputs failing for different causes
among {out-of-bounds, permission-denied, I/O-error} return distinct error
values.  They do not: a read far beyond the extent of `v9`, a read of
`v9`'s in-bounds write-only page, and a read of `v4`'s readable page whose
backing `pread` fails all return the same value `-EMU_ERR_VMM_READ`. -/
theorem c9_error_codes_not_distinct :
    (cli_emu_vmm_read8 v9 0x500000).1.1 = -EMU_ERR_VMM_READ ∧
    (cli_emu_vmm_read8 v9 0).1.1 = -EMU_ERR_VMM_READ ∧
    (cli_emu_vmm_read8 v4 0).1.1 = -EMU_ERR_VMM_READ := by
  decide

/-- C9 (amended): every failing read returns the single generic code
`-EMU_ERR_VMM_READ` and every failing write the single generic code
`-EMU_ERR_VMM_WRITE`, regardless of whether the cause was bounds,
permissions or backing I/O; read failures are distinguishable from write
failures but the three causes are not distinguishable from one another. -/
theorem c9_single_generic_error_code :
    (∀ v va len flags, (vmm_read v va len flags).1.1 = 0 ∨
        (vmm_read v va len flags).1.1 = -EMU_ERR_VMM_READ) ∧
    (∀ v va bytes, (cli_emu_vmm_write v va bytes).1 = 0 ∨
        (cli_emu_vmm_write v va bytes).1 = -EMU_ERR_VMM_WRITE) := by
  constructor
  · intro v va len flags
    rw [vmm_read]
    rcases vmm_cache_2page v va with ⟨s, v'⟩
    rcases s with _ | cslot
    · right; rfl
    · dsimp only
      split
      · left; rfl
      · right; rfl
  · intro v va bytes
    rw [cli_emu_vmm_write]
    rcases vmm_cache_2page v va with ⟨s, v'⟩
    rcases s with _ | cslot
    · right; rfl
    · dsimp only
      split
      · left; rfl
      · right; rfl

/-- C10 (counterexample): the claim says the mapped extent is
`ceil((rva_last + vsz_last) / 4096)` pages.  The code computes the sum in
32-bit arithmetic: for the accepted two-section image `[s10a, s10b]` with
`rva_last = 4096` and `vsz_last = 0xFFFFFFFF`, construction succeeds with
`n_pages = 1`, while `(4096 + 0xFFFFFFFF + 4095) / 4096 = 1048577`. -/
theorem c10_last_section_u32_wrap :
    (cli_emu_vmm_new pd2 [s10a, s10b] (fun _ => 0) nofail).map
        (fun v => v.n_pages) = some 1 ∧
    (s10b.rva + s10b.vsz + 4095) / 4096 = 1048577 ∧
    (1 : Nat) ≠ 1048577 := by
  decide

/-- C10 (amended): for every construction that is accepted, the mapped
extent is derived solely from the last section, as the 32-bit computation
`((rva_last + vsz_last + 4095) mod 2^32) / 4096`; earlier sections and the
header never extend it. -/
theorem c10_extent_from_last_section (pedata : pe_hook_data)
    (sections : List cli_exe_section) (fdata : Nat → Nat)
    (ffail : Nat → Bool) (v : emu_vmm)
    (h : cli_emu_vmm_new pedata sections fdata ffail = some v) :
    v.n_pages =
      u32 ((sections.getD (pedata.nsections - 1) {}).rva
        + (sections.getD (pedata.nsections - 1) {}).vsz + 4095) / 4096 := by
  rw [cli_emu_vmm_new] at h
  split at h
  · cases h
  · split at h
    · cases h
    · dsimp only at h
      split at h
      · cases h
      · cases h
        rfl

/-- C10 (witness): the amended extent theorem applied to the concrete
accepted construction `v1`. -/
theorem c10_extent_witness : v1.n_pages = 1 :=
  (c10_extent_from_last_section pd1 [sec1] (fun _ => 0) nofail v1
    (by rfl)).trans (by decide)

end Vmm
